import Mathlib

/-!
Verification development for the quality-gated image-generation retry
controller of the if-juku-manager repository.

The embedded code comes from:
* `src/lib/gensparkWorkflow.ts` — `generateImageWithQualityCheck`
  (the bounded Genspark retry loop with the strict/lenient quality gate and
  the Gemini fallback), `execute` (the surrounding pipeline steps 5-8) and
  `adjustSlidesToFourSlides`;
* `src/lib/gensparkPlaywright.ts` — the error messages thrown by
  `generateCarouselImages` / `navigateToImageGenerator` and the candidate
  acceptance logic of `waitForImageGeneration`;
* the image quality evaluator (`ImageQualityEvaluator.generateFixedPrompt`
  and the `QualityCheckResult` shape).

I/O boundaries (the browser, the Gemini vision judge, the filesystem) are
abstracted as oracle functions from attempt numbers to classified outcomes;
everything the controller itself computes is translated directly.
-/

namespace IfJuku

/-- The per-check booleans of a `QualityCheckResult`
(image quality evaluator, interface `QualityCheckResult.checks`). -/
structure Checks where
  characterPresent : Bool
  characterFeatures : Bool
  backgroundValid : Bool
  textPresent : Bool
  textReadable : Bool
  textComplete : Bool
  compositionValid : Bool
deriving DecidableEq

/-- The evaluator's report for one candidate image
(image quality evaluator, interface `QualityCheckResult`). -/
structure QualityCheckResult where
  isValid : Bool
  score : Int
  checks : Checks
  issues : List String
  suggestedFixes : List String
deriving DecidableEq

/-- Expected character features handed to the evaluator
(image quality evaluator, interface `CharacterFeatures`). -/
structure CharacterFeatures where
  name : String
  description : String
  requiredElements : List String
deriving DecidableEq

/-- Default `characterFeatures` built by `generateImageWithQualityCheck`
when no character is supplied (gensparkWorkflow.ts lines 343-347). -/
def defaultCharacterFeatures : CharacterFeatures :=
  { name := "キャラクター", description := "イラストキャラクター", requiredElements := [] }

/-- Whether the character list starting here begins with the needle. -/
def listStartsWith : List Char → List Char → Bool
  | _, [] => true
  | [], _ :: _ => false
  | c :: cs, d :: ds => c == d && listStartsWith cs ds

/-- Whether the needle occurs anywhere in the haystack. -/
def listContains (needle : List Char) : List Char → Bool
  | [] => needle.isEmpty
  | c :: rest => listStartsWith (c :: rest) needle || listContains needle rest

/-- JavaScript `String.prototype.includes`, as used by the controller's
error classifier (`errorMsg.includes(...)`, gensparkWorkflow.ts line 375). -/
def strIncludes (s sub : String) : Bool :=
  listContains sub.data s.data

/-- The fatal-error classifier of `generateImageWithQualityCheck`
(gensparkWorkflow.ts line 375): an error whose message contains
ログイン, login or 認証 makes the controller abandon Genspark for this
request and fall back to Gemini; any other thrown error is retried. -/
def isFatalLoginError (msg : String) : Bool :=
  strIncludes msg "ログイン" || strIncludes msg "login" || strIncludes msg "認証"

/-- Error message thrown by `generateCarouselImages` when `login()` fails
(gensparkPlaywright.ts line 834). -/
def loginFailedMsg : String := "Gensparkへのログインに失敗しました"

/-- Error message thrown by `generateCarouselImages` when
`navigateToImageGenerator` returns false (gensparkPlaywright.ts line 841).
`navigateToImageGenerator` returns false both when a login page is detected
after navigating to the generator — the expired-session case, lines 352-356
("セッションが期限切れです") — and when the prompt textarea never appears. -/
def navigationFailedMsg : String := "画像生成ページへの移動に失敗しました"

/-- The strict-check failure list of `generateImageWithQualityCheck`
(gensparkWorkflow.ts lines 424-428): text presence, text completeness,
character presence, character feature fidelity. -/
def strictFailures (c : Checks) : List String :=
  (if !c.textPresent then ["テキスト欠落"] else []) ++
  (if !c.textComplete then ["テキスト見切れ"] else []) ++
  (if !c.characterPresent then ["キャラクター欠落"] else []) ++
  (if !c.characterFeatures then ["キャラクター特徴不一致"] else [])

/-- The critical-failure list (gensparkWorkflow.ts lines 440-441): the strict
failures plus a background failure.  Note that `compositionValid` and
`textReadable` are consulted nowhere in the accept/reject decision. -/
def criticalFailures (c : Checks) : List String :=
  strictFailures c ++ (if !c.backgroundValid then ["背景欠落"] else [])

/-- All four strict checks hold. -/
def strictOk (c : Checks) : Bool :=
  c.textPresent && c.textComplete && c.characterPresent && c.characterFeatures

/-- Accept/reject decision for one evaluated candidate. -/
inductive AttemptDecision where
  | accept
  | reject
deriving DecidableEq

/-- The per-candidate decision of `generateImageWithQualityCheck`
(gensparkWorkflow.ts lines 432-462): accept conditionally when only the
background check failed and the holistic score is at least 65; otherwise
reject when any critical failure exists; otherwise accept. -/
def decideAttempt (q : QualityCheckResult) : AttemptDecision :=
  let onlyBackgroundFailed :=
    (strictFailures q.checks).length == 0 && !q.checks.backgroundValid
  if onlyBackgroundFailed && decide (65 ≤ q.score) then AttemptDecision.accept
  else if 0 < (criticalFailures q.checks).length then AttemptDecision.reject
  else AttemptDecision.accept

/-- The single corrective instruction chosen by
`ImageQualityEvaluator.generateFixedPrompt` (priority: text missing, then
text truncated, then character missing, then character features, then
background; at most one instruction, possibly none). -/
def fixInstruction (q : QualityCheckResult) (cf : CharacterFeatures) : String :=
  if !q.checks.textPresent then
    "【重要】大きな日本語テキストを画像上部に必ず表示。\n\n"
  else if !q.checks.textComplete then
    "【重要】テキストは画像中央に配置し左右20%余白を確保。見切れ禁止。\n\n"
  else if !q.checks.characterPresent then
    "【重要】キャラクターを画像中央に大きく描く。背景のみ禁止。\n\n"
  else if !q.checks.characterFeatures then
    "【重要】キャラクター特徴: " ++ String.intercalate "、" (cf.requiredElements.take 2) ++
      "を必ず描く。\n\n"
  else if !q.checks.backgroundValid then
    "【重要】背景にPC画面やデータグラフを追加。真っ白禁止。\n\n"
  else ""

/-- The repaired prompt built by `ImageQualityEvaluator.generateFixedPrompt`:
the chosen corrective
instruction prepended to the original prompt. -/
def generateFixedPrompt (originalPrompt : String) (q : QualityCheckResult)
    (cf : CharacterFeatures) : String :=
  fixInstruction q cf ++ originalPrompt

/-- Outcome of one primary (Genspark) generation attempt as the controller
sees it: a thrown error message (the catch block, lines 372-382), an empty
image list (line 384), or a produced candidate together with the quality
report the evaluator returned for it (lines 389-400). -/
inductive GensparkOutcome where
  | thrown (msg : String)
  | noImage
  | image (path : String) (q : QualityCheckResult)
deriving DecidableEq

/-- One issued primary attempt: the prompt it used and its outcome. -/
structure AttemptRec where
  promptUsed : String
  outcome : GensparkOutcome
deriving DecidableEq

/-- Result of the phase-1 (Genspark) retry loop. -/
inductive Phase1Result where
  | accepted (path : String) (q : QualityCheckResult)
  | fatal (last : Option QualityCheckResult)
  | exhausted (last : Option QualityCheckResult)
deriving DecidableEq

/-- Primary attempt ceiling `MAX_RETRIES` (gensparkWorkflow.ts line 329). -/
def MAX_RETRIES : Nat := 5

/-- The Gemini fallback attempt ceiling (gensparkWorkflow.ts lines 477, 522). -/
def GEMINI_MAX_RETRIES : Nat := 3

/-- Phase 1 of `generateImageWithQualityCheck` (gensparkWorkflow.ts lines
361-464): the bounded Genspark retry loop.  `env` maps the 1-based attempt
number to that attempt's outcome, `fuel` is the number of loop iterations
still allowed (`MAX_RETRIES` at entry) and `attemptIdx` the 1-based number of
the current attempt.  Returns the loop result together with the attempts
actually issued, in order.  A fatal thrown error breaks out of the loop
(line 378); other thrown errors and empty results retry with an unchanged
prompt (lines 381, 386); a rejected candidate retries with the corrective
prompt derived from the original (lines 446-454) while attempts remain. -/
def phase1Go (env : Nat → GensparkOutcome) (originalPrompt : String)
    (cf : CharacterFeatures) :
    Nat → Nat → String → Option QualityCheckResult →
    Phase1Result × List AttemptRec
  | 0, _, _, lastQ => (Phase1Result.exhausted lastQ, [])
  | fuel + 1, attemptIdx, currentPrompt, lastQ =>
    match env attemptIdx with
    | GensparkOutcome.thrown msg =>
      if isFatalLoginError msg then
        (Phase1Result.fatal lastQ, [⟨currentPrompt, GensparkOutcome.thrown msg⟩])
      else
        let r := phase1Go env originalPrompt cf fuel (attemptIdx + 1) currentPrompt lastQ
        (r.1, ⟨currentPrompt, GensparkOutcome.thrown msg⟩ :: r.2)
    | GensparkOutcome.noImage =>
      let r := phase1Go env originalPrompt cf fuel (attemptIdx + 1) currentPrompt lastQ
      (r.1, ⟨currentPrompt, GensparkOutcome.noImage⟩ :: r.2)
    | GensparkOutcome.image path q =>
      match decideAttempt q with
      | AttemptDecision.accept =>
        (Phase1Result.accepted path q, [⟨currentPrompt, GensparkOutcome.image path q⟩])
      | AttemptDecision.reject =>
        if attemptIdx < MAX_RETRIES then
          let r := phase1Go env originalPrompt cf fuel (attemptIdx + 1)
            (generateFixedPrompt originalPrompt q cf) (some q)
          (r.1, ⟨currentPrompt, GensparkOutcome.image path q⟩ :: r.2)
        else
          (Phase1Result.exhausted (some q), [⟨currentPrompt, GensparkOutcome.image path q⟩])

/-- The Gemini fallback loop (gensparkWorkflow.ts lines 477-494 and
522-536, which are identical): up to `fuel` attempts; `env2` maps the
1-based fallback attempt number to the produced background-image path, with
`none` meaning that attempt failed or threw.  Returns the first success
and the number of fallback attempts actually issued. -/
def phase2Go (env2 : Nat → Option String) : Nat → Nat → Option String × Nat
  | 0, _ => (none, 0)
  | fuel + 1, attemptIdx =>
    match env2 attemptIdx with
    | some path => (some path, 1)
    | none =>
      let r := phase2Go env2 fuel (attemptIdx + 1)
      (r.1, r.2 + 1)

/-- The two terminal failures thrown by `generateImageWithQualityCheck`:
Genspark login failure plus three Gemini failures (line 497), or five
quality-rejected/failed Genspark attempts plus three Gemini failures
(line 539). -/
inductive WorkflowFailure where
  | loginAndFallbackFailed
  | qualityAndFallbackFailed
deriving DecidableEq

/-- Return value of `generateImageWithQualityCheck`: an image path with its
quality report (`none` for a Gemini fallback image, which is produced
without a quality evaluation and flagged for downstream text compositing,
lines 486-488), or a thrown terminal failure. -/
inductive GenResult where
  | ok (imagePath : String) (qualityResult : Option QualityCheckResult)
  | failed (e : WorkflowFailure)
deriving DecidableEq

/-- Full result of one run of `generateImageWithQualityCheck`, instrumented
with the issued primary attempts and the number of fallback attempts. -/
structure RunResult where
  outcome : GenResult
  primaryTrace : List AttemptRec
  fallbackAttempts : Nat
deriving DecidableEq

/-- The controller `generateImageWithQualityCheck` (gensparkWorkflow.ts lines 321-544).
Phase 1 runs the Genspark loop starting from the original prompt; an
accepted candidate returns with its report (lines 436, 462).  When the loop
ends fatally (login-classified error) or exhausted (five attempts without an
accepted candidate), the Gemini fallback runs up to three attempts and a
success returns with a `none` report (lines 488, 530); if it too fails, the
corresponding terminal error is thrown (lines 497, 539). -/
def generateImageWithQualityCheck (env1 : Nat → GensparkOutcome)
    (env2 : Nat → Option String) (prompt : String) (cf : CharacterFeatures) :
    RunResult :=
  let p1 := phase1Go env1 prompt cf MAX_RETRIES 1 prompt none
  match p1.1 with
  | Phase1Result.accepted path q => ⟨GenResult.ok path (some q), p1.2, 0⟩
  | Phase1Result.fatal _ =>
    let p2 := phase2Go env2 GEMINI_MAX_RETRIES 1
    match p2.1 with
    | some path => ⟨GenResult.ok path none, p1.2, p2.2⟩
    | none => ⟨GenResult.failed WorkflowFailure.loginAndFallbackFailed, p1.2, p2.2⟩
  | Phase1Result.exhausted _ =>
    let p2 := phase2Go env2 GEMINI_MAX_RETRIES 1
    match p2.1 with
    | some path => ⟨GenResult.ok path none, p1.2, p2.2⟩
    | none => ⟨GenResult.failed WorkflowFailure.qualityAndFallbackFailed, p1.2, p2.2⟩

/-- Result of the modelled `execute` pipeline tail: success flag, final local
image paths, public URLs, and whether the FTP-upload and Publer-scheduling
steps were reached at all. -/
structure ExecResult where
  success : Bool
  localImages : List String
  publicUrls : List String
  ftpUploadCalled : Bool
  publerScheduleCalled : Bool
deriving DecidableEq

/-- The failed `execute` return value built in the outer catch block
(gensparkWorkflow.ts lines 947-956): `success = false` with empty image and
URL lists, and — since the exception propagated from step 5 — neither the
FTP upload (step 7) nor Publer scheduling (step 8) was reached. -/
def failedExecResult : ExecResult := ⟨false, [], [], false, false⟩

/-- The per-slide generation loop of `execute` (gensparkWorkflow.ts lines
723-753): slides are processed in order and the first
`generateImageWithQualityCheck` failure is rethrown, aborting the loop.
`runs` maps the 0-based slide index to that slide's generation result. -/
def genLoop (runs : Nat → GenResult) :
    Nat → Nat → Except WorkflowFailure (List String × List (Option QualityCheckResult))
  | 0, _ => Except.ok ([], [])
  | n + 1, i =>
    match runs i with
    | GenResult.failed e => Except.error e
    | GenResult.ok path oq =>
      match genLoop runs n (i + 1) with
      | Except.error e => Except.error e
      | Except.ok (paths, oqs) => Except.ok (path :: paths, oq :: oqs)

/-- Environment of the modelled `execute` tail: the outcome of
`generateImageWithQualityCheck` per slide index, the number of image
prompts, the step-6 compositing as an opaque-to-us function from the
generated images and their reports to the final images, the FTP upload as a
function from final images to public URLs, and the `skipUpload` option. -/
structure ExecEnv where
  runs : Nat → GenResult
  numPrompts : Nat
  compose : List String → List (Option QualityCheckResult) → List String
  upload : List String → List String
  skipUpload : Bool

/-- Steps 5-8 of `GensparkWorkflow.execute` (gensparkWorkflow.ts lines
709-957).  Any failure thrown inside the generation loop — or the
four-image count check at lines 756-758 — is caught by the outer try/catch,
which returns `failedExecResult` without reaching the FTP upload or Publer
scheduling; otherwise the final images are composed, uploaded unless
`skipUpload`, and Publer scheduling runs exactly when public URLs exist
(line 915). -/
def executeModel (env : ExecEnv) : ExecResult :=
  match genLoop env.runs env.numPrompts 0 with
  | Except.error _ => failedExecResult
  | Except.ok (images, oqs) =>
    if images.length ≠ 4 then failedExecResult
    else
      let finalImages := env.compose images oqs
      let publicUrls := if env.skipUpload then [] else env.upload finalImages
      ⟨true, finalImages, publicUrls, !env.skipUpload, !publicUrls.isEmpty⟩

/-- Slide types (types.ts line 6). -/
inductive SlideType where
  | cover
  | content
  | thanks
deriving DecidableEq

/-- A carousel slide (types.ts lines 9-15). -/
structure Slide where
  type : SlideType
  headline : String
  subtext : Option String := none
  points : Option (List String) := none
  cta : Option String := none
deriving DecidableEq

/-- The filler content slide pushed by `adjustSlidesToFourSlides` when fewer
than four slides are available (gensparkWorkflow.ts lines 983-989). -/
def fillerSlide : Slide :=
  { type := SlideType.content
    headline := "もっと詳しく知りたい方へ"
    points := some ["プロフィールをチェック", "DMでお気軽にどうぞ", "フォローお待ちしてます"] }

/-- The cover block of `adjustSlidesToFourSlides` (gensparkWorkflow.ts lines
967-974): the input's first cover slide if one exists, otherwise the first
input slide retyped as a cover, otherwise nothing. -/
def coverPart (slides : List Slide) : List Slide :=
  match slides.find? (fun s => decide (s.type = SlideType.cover)) with
  | some c => [c]
  | none =>
    match slides with
    | [] => []
    | s0 :: _ => [{ s0 with type := SlideType.cover }]

/-- The padding while-loop of `adjustSlidesToFourSlides` (lines 983-989):
push filler slides until four slides are present. -/
def padToFour (l : List Slide) : List Slide :=
  l ++ List.replicate (4 - l.length) fillerSlide

/-- The slide adjuster `adjustSlidesToFourSlides` (gensparkWorkflow.ts lines 964-992): the
chosen cover, then up to three of the input's content slides in order, then
filler up to four. -/
def adjustSlidesToFourSlides (slides : List Slide) : List Slide :=
  padToFour (coverPart slides ++
    (slides.filter (fun s => decide (s.type = SlideType.content))).take 3)

/-- One candidate image considered by `waitForImageGeneration` after passing
the dimension and src heuristics (gensparkPlaywright.ts lines 702-718):
`fetchedBytes` is the byte count obtained by the in-page fetch / Base64
decode when that succeeded (lines 729-763), `screenshotBytes` the byte count
of the element-screenshot file when that capture succeeded with an adequate
bounding box (lines 777-787). -/
structure CandidateImage where
  path : String
  fetchedBytes : Option Nat
  screenshotBytes : Option Nat
deriving DecidableEq

/-- The byte-count threshold both save paths must exceed
(gensparkPlaywright.ts lines 765 and 782). -/
def MIN_IMAGE_BYTES : Nat := 30000

/-- The screenshot-fallback branch of `waitForImageGeneration` (lines
776-790): keep the screenshot only above the threshold, else delete it and
keep polling. -/
def screenshotFallback (c : CandidateImage) : Option (String × Nat) :=
  match c.screenshotBytes with
  | some m => if MIN_IMAGE_BYTES < m then some (c.path, m) else none
  | none => none

/-- Processing of one detected candidate (lines 729-790): prefer the raw
fetched bytes; when download fails or the buffer is not above the threshold,
fall through to the screenshot fallback. -/
def processCandidate (c : CandidateImage) : Option (String × Nat) :=
  match c.fetchedBytes with
  | some n => if MIN_IMAGE_BYTES < n then some (c.path, n) else screenshotFallback c
  | none => screenshotFallback c

/-- The poller `waitForImageGeneration` (gensparkPlaywright.ts lines 662-815) over the
sequence of qualifying candidates observed while polling: the first
candidate saved above the size threshold is returned with its byte count;
exhausting the timeout returns `none`. -/
def waitForImageGeneration : List CandidateImage → Option (String × Nat)
  | [] => none
  | c :: rest =>
    match processCandidate c with
    | some r => some r
    | none => waitForImageGeneration rest

/-- A thrown primary-attempt outcome that the controller classifies as
fatal to the Genspark provider. -/
def isFatalThrown : GensparkOutcome → Bool
  | GensparkOutcome.thrown msg => isFatalLoginError msg
  | _ => false

/-- Every fatally-classified entry of an attempt list is its last entry. -/
def noFatalExceptLast : List AttemptRec → Bool
  | [] => true
  | e :: rest =>
    if rest.isEmpty then true
    else !isFatalThrown e.outcome && noFatalExceptLast rest

/-! ### Concrete quality reports used as test inputs -/

/-- A report passing every check with holistic score 90. -/
def qPerfect : QualityCheckResult :=
  { isValid := true, score := 90,
    checks := { characterPresent := true, characterFeatures := true, backgroundValid := true,
                textPresent := true, textReadable := true, textComplete := true,
                compositionValid := true },
    issues := [], suggestedFixes := [] }

/-- A report whose only failing check is `compositionValid`, with holistic
score 50 — below the 65 acceptance threshold. -/
def qCompositionOnlyFailed : QualityCheckResult :=
  { isValid := false, score := 50,
    checks := { characterPresent := true, characterFeatures := true, backgroundValid := true,
                textPresent := true, textReadable := true, textComplete := true,
                compositionValid := false },
    issues := [], suggestedFixes := [] }

/-- A report whose only failing check is `backgroundValid`, with holistic
score 70 — above the 65 acceptance threshold. -/
def qBackgroundOnlyFailed70 : QualityCheckResult :=
  { isValid := false, score := 70,
    checks := { characterPresent := true, characterFeatures := true, backgroundValid := false,
                textPresent := true, textReadable := true, textComplete := true,
                compositionValid := true },
    issues := [], suggestedFixes := [] }

/-- A report failing the strict text-presence check, with a high holistic
score 80. -/
def qTextMissing : QualityCheckResult :=
  { isValid := false, score := 80,
    checks := { characterPresent := true, characterFeatures := true, backgroundValid := true,
                textPresent := false, textReadable := true, textComplete := true,
                compositionValid := true },
    issues := [], suggestedFixes := [] }

/-! ### Helper lemmas about the quality gate -/

theorem strictFailures_eq_nil_iff (c : Checks) :
    strictFailures c = [] ↔ strictOk c = true := by
  obtain ⟨cp, cfe, bv, tp, tr, tc, cv⟩ := c
  cases tp <;> cases tc <;> cases cp <;> cases cfe <;>
    simp [strictFailures, strictOk]

theorem strict_ok_of_accept (q : QualityCheckResult)
    (h : decideAttempt q = AttemptDecision.accept) : strictOk q.checks = true := by
  rw [← strictFailures_eq_nil_iff]
  simp only [decideAttempt] at h
  split at h
  · rename_i hcond
    rw [Bool.and_eq_true, Bool.and_eq_true] at hcond
    exact List.length_eq_zero.mp (by simpa using hcond.1.1)
  · split at h
    · exact absurd h (by simp)
    · rename_i hcrit
      have hnil : criticalFailures q.checks = [] :=
        List.length_eq_zero.mp (by omega)
      rw [criticalFailures] at hnil
      exact (List.append_eq_nil.mp hnil).1

theorem reject_of_strict_failure (q : QualityCheckResult)
    (h : strictOk q.checks = false) : decideAttempt q = AttemptDecision.reject := by
  cases hd : decideAttempt q with
  | accept => rw [strict_ok_of_accept q hd] at h; cases h
  | reject => rfl

/-! ### Helper lemmas about the phase-1 retry loop -/

theorem phase1Go_accepted_decide (env : Nat → GensparkOutcome) (o : String)
    (cf : CharacterFeatures) :
    ∀ fuel idx cur lastQ path q,
      (phase1Go env o cf fuel idx cur lastQ).1 = Phase1Result.accepted path q →
      decideAttempt q = AttemptDecision.accept := by
  intro fuel
  induction fuel with
  | zero =>
    intro idx cur lastQ path q h
    simp [phase1Go] at h
  | succ n ih =>
    intro idx cur lastQ path q h
    simp only [phase1Go] at h
    split at h
    · split at h
      · simp at h
      · simp only at h
        exact ih _ _ _ _ _ h
    · simp only at h
      exact ih _ _ _ _ _ h
    · rename_i path' q' heq
      split at h
      · rename_i hd
        simp only at h
        simp only [Phase1Result.accepted.injEq] at h
        exact h.2 ▸ hd
      · split at h
        · simp only at h
          exact ih _ _ _ _ _ h
        · simp at h

theorem phase1Go_trace_len (env : Nat → GensparkOutcome) (o : String)
    (cf : CharacterFeatures) :
    ∀ fuel idx cur lastQ,
      (phase1Go env o cf fuel idx cur lastQ).2.length ≤ fuel := by
  intro fuel
  induction fuel with
  | zero => intro idx cur lastQ; simp [phase1Go]
  | succ n ih =>
    intro idx cur lastQ
    simp only [phase1Go]
    split
    · split
      · simp
      · simp only [List.length_cons]
        exact Nat.succ_le_succ (ih _ _ _)
    · simp only [List.length_cons]
      exact Nat.succ_le_succ (ih _ _ _)
    · split
      · simp
      · split
        · simp only [List.length_cons]
          exact Nat.succ_le_succ (ih _ _ _)
        · simp

theorem phase2Go_count_le (env2 : Nat → Option String) :
    ∀ fuel idx, (phase2Go env2 fuel idx).2 ≤ fuel := by
  intro fuel
  induction fuel with
  | zero => intro idx; simp [phase2Go]
  | succ n ih =>
    intro idx
    simp only [phase2Go]
    split
    · simp
    · simp only
      exact Nat.succ_le_succ (ih _)

theorem phase2Go_some_src (env2 : Nat → Option String) :
    ∀ fuel idx path,
      (phase2Go env2 fuel idx).1 = some path →
      ∃ k, idx ≤ k ∧ k < idx + fuel ∧ env2 k = some path := by
  intro fuel
  induction fuel with
  | zero => intro idx path h; simp [phase2Go] at h
  | succ n ih =>
    intro idx path h
    simp only [phase2Go] at h
    split at h
    · rename_i heq
      simp only at h
      cases h
      exact ⟨idx, Nat.le_refl idx, by omega, heq⟩
    · simp only at h
      obtain ⟨k, hk1, hk2, hk3⟩ := ih _ _ h
      exact ⟨k, by omega, by omega, hk3⟩

theorem noFatalExceptLast_cons (e : AttemptRec) (rest : List AttemptRec)
    (h1 : isFatalThrown e.outcome = false)
    (h2 : noFatalExceptLast rest = true) :
    noFatalExceptLast (e :: rest) = true := by
  cases rest with
  | nil => rfl
  | cons f t =>
    rw [noFatalExceptLast]
    simp [h1, h2]

theorem phase1Go_noFatalExceptLast (env : Nat → GensparkOutcome) (o : String)
    (cf : CharacterFeatures) :
    ∀ fuel idx cur lastQ,
      noFatalExceptLast (phase1Go env o cf fuel idx cur lastQ).2 = true := by
  intro fuel
  induction fuel with
  | zero => intro idx cur lastQ; simp [phase1Go, noFatalExceptLast]
  | succ n ih =>
    intro idx cur lastQ
    simp only [phase1Go]
    split
    · rename_i msg heq
      split
      · rfl
      · rename_i hf
        simp only
        exact noFatalExceptLast_cons _ _ (by simp [isFatalThrown, hf]) (ih _ _ _)
    · simp only
      exact noFatalExceptLast_cons _ _ (by simp [isFatalThrown]) (ih _ _ _)
    · split
      · rfl
      · split
        · simp only
          exact noFatalExceptLast_cons _ _ (by simp [isFatalThrown]) (ih _ _ _)
        · rfl

theorem phase1Go_fatal_of_mem (env : Nat → GensparkOutcome) (o : String)
    (cf : CharacterFeatures) :
    ∀ fuel idx cur lastQ,
      ∀ e ∈ (phase1Go env o cf fuel idx cur lastQ).2,
        isFatalThrown e.outcome = true →
        ∃ lq, (phase1Go env o cf fuel idx cur lastQ).1 = Phase1Result.fatal lq := by
  intro fuel
  induction fuel with
  | zero => intro idx cur lastQ e he; simp [phase1Go] at he
  | succ n ih =>
    intro idx cur lastQ e he hf
    revert he
    simp only [phase1Go]
    split
    · rename_i msg heq
      split
      · intro he
        exact ⟨lastQ, rfl⟩
      · rename_i hnf
        simp only [List.mem_cons]
        rintro (rfl | he)
        · rw [isFatalThrown] at hf
          rw [hf] at hnf
          cases hnf rfl
        · exact ih _ _ _ e he hf
    · simp only [List.mem_cons]
      rintro (rfl | he)
      · simp [isFatalThrown] at hf
      · exact ih _ _ _ e he hf
    · split
      · simp only [List.mem_cons, List.not_mem_nil, or_false]
        rintro rfl
        simp [isFatalThrown] at hf
      · split
        · simp only [List.mem_cons]
          rintro (rfl | he)
          · simp [isFatalThrown] at hf
          · exact ih _ _ _ e he hf
        · simp only [List.mem_cons, List.not_mem_nil, or_false]
          rintro rfl
          simp [isFatalThrown] at hf

theorem phase1Go_accepted_mem (env : Nat → GensparkOutcome) (o : String)
    (cf : CharacterFeatures) :
    ∀ fuel idx cur lastQ path q,
      (phase1Go env o cf fuel idx cur lastQ).1 = Phase1Result.accepted path q →
      ∃ e ∈ (phase1Go env o cf fuel idx cur lastQ).2,
        e.outcome = GensparkOutcome.image path q := by
  intro fuel
  induction fuel with
  | zero =>
    intro idx cur lastQ path q h
    simp [phase1Go] at h
  | succ n ih =>
    intro idx cur lastQ path q
    simp only [phase1Go]
    split
    · split
      · intro h; simp at h
      · simp only
        intro h
        obtain ⟨e, he, hout⟩ := ih _ _ _ _ _ h
        exact ⟨e, List.mem_cons_of_mem _ he, hout⟩
    · simp only
      intro h
      obtain ⟨e, he, hout⟩ := ih _ _ _ _ _ h
      exact ⟨e, List.mem_cons_of_mem _ he, hout⟩
    · rename_i path' q' heq
      split
      · simp only
        intro h
        rw [Phase1Result.accepted.injEq] at h
        exact ⟨_, List.mem_singleton_self _, by rw [h.1, h.2]⟩
      · split
        · simp only
          intro h
          obtain ⟨e, he, hout⟩ := ih _ _ _ _ _ h
          exact ⟨e, List.mem_cons_of_mem _ he, hout⟩
        · intro h; simp at h

theorem phase1Go_prompt_lineage (env : Nat → GensparkOutcome) (o : String)
    (cf : CharacterFeatures) :
    ∀ fuel idx cur lastQ,
      (cur = o ∨ ∃ q, cur = fixInstruction q cf ++ o) →
      ∀ e ∈ (phase1Go env o cf fuel idx cur lastQ).2,
        e.promptUsed = o ∨ ∃ q, e.promptUsed = fixInstruction q cf ++ o := by
  intro fuel
  induction fuel with
  | zero =>
    intro idx cur lastQ hcur e he
    simp [phase1Go] at he
  | succ n ih =>
    intro idx cur lastQ hcur e
    simp only [phase1Go]
    split
    · split
      · simp only [List.mem_singleton]
        rintro rfl
        exact hcur
      · simp only [List.mem_cons]
        rintro (rfl | he)
        · exact hcur
        · exact ih _ _ _ hcur e he
    · simp only [List.mem_cons]
      rintro (rfl | he)
      · exact hcur
      · exact ih _ _ _ hcur e he
    · rename_i path' q' heq
      split
      · simp only [List.mem_singleton]
        rintro rfl
        exact hcur
      · split
        · simp only [List.mem_cons]
          rintro (rfl | he)
          · exact hcur
          · exact ih _ _ _ (Or.inr ⟨q', rfl⟩) e he
        · simp only [List.mem_singleton]
          rintro rfl
          exact hcur

theorem phase1Go_trace_head (env : Nat → GensparkOutcome) (o : String)
    (cf : CharacterFeatures) :
    ∀ n idx cur lastQ e,
      (phase1Go env o cf (n + 1) idx cur lastQ).2.head? = some e →
      e.promptUsed = cur := by
  intro n idx cur lastQ e
  simp only [phase1Go]
  split
  · split
    · simp only [List.head?_cons, Option.some.injEq]
      rintro rfl; rfl
    · simp only [List.head?_cons, Option.some.injEq]
      rintro rfl; rfl
  · simp only [List.head?_cons, Option.some.injEq]
    rintro rfl; rfl
  · split
    · simp only [List.head?_cons, Option.some.injEq]
      rintro rfl; rfl
    · split
      · simp only [List.head?_cons, Option.some.injEq]
        rintro rfl; rfl
      · simp only [List.head?_cons, Option.some.injEq]
        rintro rfl; rfl

/-! ### Claim theorems -/

/-- C1: the controller never returns a candidate as the accepted result with
its quality report while any strict-check boolean (textPresent,
textComplete, characterPresent, characterFeatures) of that report is false,
and whenever any strict check is false the per-attempt decision is reject —
regardless of the holistic score. -/
theorem strict_gate_blocks_acceptance :
    (∀ (env1 : Nat → GensparkOutcome) (env2 : Nat → Option String)
       (p : String) (cf : CharacterFeatures) (path : String) (q : QualityCheckResult),
       (generateImageWithQualityCheck env1 env2 p cf).outcome = GenResult.ok path (some q) →
       strictOk q.checks = true) ∧
    (∀ q : QualityCheckResult, strictOk q.checks = false →
       decideAttempt q = AttemptDecision.reject) := by
  constructor
  · intro env1 env2 p cf path q h
    simp only [generateImageWithQualityCheck] at h
    split at h
    · rename_i path' q' heq
      simp only [GenResult.ok.injEq, Option.some.injEq] at h
      exact strict_ok_of_accept q
        (h.2 ▸ phase1Go_accepted_decide env1 p cf _ _ _ _ _ _ heq)
    · split at h
      · simp at h
      · simp at h
    · split at h
      · simp at h
      · simp at h
  · intro q h
    exact reject_of_strict_failure q h

/-- C1 witness: a run accepting a perfect report has all strict checks true,
and a report missing its text is rejected despite a score of 80. -/
theorem strict_gate_blocks_acceptance_witness :
    strictOk qPerfect.checks = true ∧
    decideAttempt qTextMissing = AttemptDecision.reject :=
  ⟨strict_gate_blocks_acceptance.1
      (fun _ => GensparkOutcome.image "slide1.png" qPerfect) (fun _ => none)
      "original prompt" defaultCharacterFeatures "slide1.png" qPerfect rfl,
   strict_gate_blocks_acceptance.2 qTextMissing rfl⟩

/-- C2: every run issues at most 5 primary and at most 3 fallback attempts
(at most 8 in total), and terminates either with a candidate accepted by the
quality gate, with an image actually produced by the fallback provider, or
with a reported terminal failure — never with a silently accepted
sub-threshold image. -/
theorem attempt_budget_and_terminal_failure :
    ∀ (env1 : Nat → GensparkOutcome) (env2 : Nat → Option String)
      (p : String) (cf : CharacterFeatures),
      ((generateImageWithQualityCheck env1 env2 p cf).primaryTrace.length ≤ 5 ∧
       (generateImageWithQualityCheck env1 env2 p cf).fallbackAttempts ≤ 3 ∧
       (generateImageWithQualityCheck env1 env2 p cf).primaryTrace.length +
         (generateImageWithQualityCheck env1 env2 p cf).fallbackAttempts ≤ 8) ∧
      ((∃ path q, (generateImageWithQualityCheck env1 env2 p cf).outcome =
          GenResult.ok path (some q) ∧ decideAttempt q = AttemptDecision.accept) ∨
       (∃ path k, (generateImageWithQualityCheck env1 env2 p cf).outcome =
          GenResult.ok path none ∧ 1 ≤ k ∧ k ≤ 3 ∧ env2 k = some path) ∨
       (∃ e, (generateImageWithQualityCheck env1 env2 p cf).outcome =
          GenResult.failed e)) := by
  intro env1 env2 p cf
  have hlen : (phase1Go env1 p cf MAX_RETRIES 1 p none).2.length ≤ 5 :=
    phase1Go_trace_len env1 p cf MAX_RETRIES 1 p none
  have hfb : (phase2Go env2 GEMINI_MAX_RETRIES 1).2 ≤ 3 :=
    phase2Go_count_le env2 GEMINI_MAX_RETRIES 1
  simp only [generateImageWithQualityCheck]
  split
  · rename_i path q heq
    dsimp only
    refine ⟨⟨hlen, by omega, by omega⟩, Or.inl ⟨path, q, rfl, ?_⟩⟩
    exact phase1Go_accepted_decide env1 p cf _ _ _ _ _ _ heq
  · split
    · rename_i path heq2
      dsimp only
      refine ⟨⟨hlen, hfb, by omega⟩, Or.inr (Or.inl ?_)⟩
      obtain ⟨k, hk1, hk2, hk3⟩ := phase2Go_some_src env2 GEMINI_MAX_RETRIES 1 path heq2
      exact ⟨path, k, rfl, hk1, by revert hk2; simp [GEMINI_MAX_RETRIES]; omega, hk3⟩
    · dsimp only
      exact ⟨⟨hlen, hfb, by omega⟩, Or.inr (Or.inr ⟨_, rfl⟩)⟩
  · split
    · rename_i path heq2
      dsimp only
      refine ⟨⟨hlen, hfb, by omega⟩, Or.inr (Or.inl ?_)⟩
      obtain ⟨k, hk1, hk2, hk3⟩ := phase2Go_some_src env2 GEMINI_MAX_RETRIES 1 path heq2
      exact ⟨path, k, rfl, hk1, by revert hk2; simp [GEMINI_MAX_RETRIES]; omega, hk3⟩
    · dsimp only
      exact ⟨⟨hlen, hfb, by omega⟩, Or.inr (Or.inr ⟨_, rfl⟩)⟩

theorem run_primaryTrace (env1 : Nat → GensparkOutcome) (env2 : Nat → Option String)
    (p : String) (cf : CharacterFeatures) :
    (generateImageWithQualityCheck env1 env2 p cf).primaryTrace =
      (phase1Go env1 p cf MAX_RETRIES 1 p none).2 := by
  simp only [generateImageWithQualityCheck]
  split
  · rfl
  · split <;> rfl
  · split <;> rfl

/-- C3 counterexample: a report passing all strict checks and
`backgroundValid`, failing only the lenient `compositionValid` check and
scoring 50 — strictly below the 65 acceptance threshold — is nonetheless
returned as the accepted result on the first attempt:  `compositionValid`
is consulted nowhere in the accept/reject decision. -/
theorem composition_only_low_score_accepted :
    (generateImageWithQualityCheck
        (fun _ => GensparkOutcome.image "comp_slide.png" qCompositionOnlyFailed)
        (fun _ => none) "pr3" defaultCharacterFeatures).outcome =
      GenResult.ok "comp_slide.png" (some qCompositionOnlyFailed) ∧
    strictOk qCompositionOnlyFailed.checks = true ∧
    qCompositionOnlyFailed.checks.compositionValid = false ∧
    qCompositionOnlyFailed.score < 65 :=
  ⟨rfl, rfl, rfl, by decide⟩

/-- C3 amended: for an attempt whose report has all four strict checks true,
the candidate is accepted if and only if `backgroundValid` is true or the
holistic score is at least 65.  In particular a background-only failure is
accepted exactly when the score reaches the threshold, while a
composition-only failure is accepted regardless of the score. -/
theorem lenient_acceptance_iff (q : QualityCheckResult)
    (h : strictOk q.checks = true) :
    decideAttempt q = AttemptDecision.accept ↔
      (q.checks.backgroundValid = true ∨ 65 ≤ q.score) := by
  have hnil : strictFailures q.checks = [] := (strictFailures_eq_nil_iff q.checks).mpr h
  cases hbv : q.checks.backgroundValid with
  | true => simp [decideAttempt, hnil, criticalFailures, hbv]
  | false =>
    by_cases hs : 65 ≤ q.score
    · simp [decideAttempt, hnil, criticalFailures, hbv, hs]
    · simp [decideAttempt, hnil, criticalFailures, hbv, hs]

/-- C3 amended witness: the background-only report with score 70 is
accepted. -/
theorem lenient_acceptance_iff_witness :
    decideAttempt qBackgroundOnlyFailed70 = AttemptDecision.accept :=
  (lenient_acceptance_iff qBackgroundOnlyFailed70 rfl).mpr (Or.inr (by decide))

/-- C4: in every run, a fatally-classified (LoginRequired) thrown outcome
can only be the last primary attempt — no further primary attempts are
issued after it; and in the concrete scenario where the primary provider
throws its login failure on attempt 1 and the fallback succeeds on its
first try, exactly 1 primary and 1 fallback attempt are made and the
fallback image is returned. -/
theorem login_fatal_stops_primary :
    (∀ (env1 : Nat → GensparkOutcome) (env2 : Nat → Option String)
       (p : String) (cf : CharacterFeatures),
       noFatalExceptLast (generateImageWithQualityCheck env1 env2 p cf).primaryTrace = true) ∧
    ((generateImageWithQualityCheck (fun _ => GensparkOutcome.thrown loginFailedMsg)
        (fun _ => some "fallback_slide.png") "pr4" defaultCharacterFeatures).primaryTrace.length = 1 ∧
     (generateImageWithQualityCheck (fun _ => GensparkOutcome.thrown loginFailedMsg)
        (fun _ => some "fallback_slide.png") "pr4" defaultCharacterFeatures).fallbackAttempts = 1 ∧
     (generateImageWithQualityCheck (fun _ => GensparkOutcome.thrown loginFailedMsg)
        (fun _ => some "fallback_slide.png") "pr4" defaultCharacterFeatures).outcome =
       GenResult.ok "fallback_slide.png" none) := by
  constructor
  · intro env1 env2 p cf
    rw [run_primaryTrace]
    exact phase1Go_noFatalExceptLast env1 p cf MAX_RETRIES 1 p none
  · exact ⟨rfl, rfl, rfl⟩

/-- C5: every prompt used by a primary attempt is either the original
prompt or the original prompt with exactly one corrective instruction
prepended — never a repair of an already repaired prompt — and the first
attempt always uses the original prompt itself. -/
theorem prompt_lineage :
    (∀ (env1 : Nat → GensparkOutcome) (env2 : Nat → Option String)
       (p : String) (cf : CharacterFeatures) (e : AttemptRec),
       e ∈ (generateImageWithQualityCheck env1 env2 p cf).primaryTrace →
       (e.promptUsed = p ∨ ∃ q, e.promptUsed = fixInstruction q cf ++ p)) ∧
    (∀ (env1 : Nat → GensparkOutcome) (env2 : Nat → Option String)
       (p : String) (cf : CharacterFeatures) (e : AttemptRec),
       (generateImageWithQualityCheck env1 env2 p cf).primaryTrace.head? = some e →
       e.promptUsed = p) := by
  constructor
  · intro env1 env2 p cf e he
    rw [run_primaryTrace] at he
    exact phase1Go_prompt_lineage env1 p cf MAX_RETRIES 1 p none (Or.inl rfl) e he
  · intro env1 env2 p cf e he
    rw [run_primaryTrace] at he
    have h5 : MAX_RETRIES = 4 + 1 := rfl
    rw [h5] at he
    exact phase1Go_trace_head env1 p cf 4 1 p none e he

/-- C5 witness: in a run whose first candidate is rejected for missing text
and whose second is accepted, the second attempt's prompt is the original
prompt with the one text-missing corrective instruction prepended. -/
theorem prompt_lineage_witness :
    (⟨fixInstruction qTextMissing defaultCharacterFeatures ++ "base prompt",
      GensparkOutcome.image "retry_ok.png" qPerfect⟩ : AttemptRec).promptUsed = "base prompt" ∨
    ∃ q, (⟨fixInstruction qTextMissing defaultCharacterFeatures ++ "base prompt",
      GensparkOutcome.image "retry_ok.png" qPerfect⟩ : AttemptRec).promptUsed =
        fixInstruction q defaultCharacterFeatures ++ "base prompt" :=
  prompt_lineage.1
    (fun k => if k == 1 then GensparkOutcome.image "first_try.png" qTextMissing
              else GensparkOutcome.image "retry_ok.png" qPerfect)
    (fun _ => none) "base prompt" defaultCharacterFeatures
    ⟨fixInstruction qTextMissing defaultCharacterFeatures ++ "base prompt",
      GensparkOutcome.image "retry_ok.png" qPerfect⟩
    (by decide)

/-- C6 counterexample: a run whose primary provider fails with its login
error and whose Gemini fallback succeeds on the first try returns a
successfully produced image with no QualityReport at all (`none`): fallback
images are returned without any quality evaluation, contradicting
"every successfully produced candidate image (from any provider) carries a
QualityReport". -/
theorem fallback_image_has_no_quality_report :
    (generateImageWithQualityCheck (fun _ => GensparkOutcome.thrown loginFailedMsg)
        (fun _ => some "gemini_bg.png") "pr6" defaultCharacterFeatures).outcome =
      GenResult.ok "gemini_bg.png" none := rfl

/-- C6 amended: a returned image either carries the quality report of the
evaluated primary attempt that produced it, or carries no report and was
produced by the fallback provider (whose images skip evaluation and are
flagged for downstream text compositing by the `none` report). -/
theorem quality_report_provenance :
    ∀ (env1 : Nat → GensparkOutcome) (env2 : Nat → Option String)
      (p : String) (cf : CharacterFeatures) (path : String)
      (oq : Option QualityCheckResult),
      (generateImageWithQualityCheck env1 env2 p cf).outcome = GenResult.ok path oq →
      ((∃ q, oq = some q ∧
          ∃ e ∈ (generateImageWithQualityCheck env1 env2 p cf).primaryTrace,
            e.outcome = GensparkOutcome.image path q) ∨
       (oq = none ∧ ∃ k, 1 ≤ k ∧ k ≤ 3 ∧ env2 k = some path)) := by
  intro env1 env2 p cf path oq h
  rw [run_primaryTrace]
  revert h
  simp only [generateImageWithQualityCheck]
  split
  · rename_i path' q' heq
    dsimp only
    intro h
    rw [GenResult.ok.injEq] at h
    obtain ⟨e, he, ho⟩ := phase1Go_accepted_mem env1 p cf _ _ _ _ _ _ heq
    exact Or.inl ⟨q', h.2.symm, e, he, h.1 ▸ ho⟩
  · split
    · rename_i path2 heq2
      dsimp only
      intro h
      rw [GenResult.ok.injEq] at h
      obtain ⟨k, hk1, hk2, hk3⟩ := phase2Go_some_src env2 GEMINI_MAX_RETRIES 1 path2 heq2
      refine Or.inr ⟨h.2.symm, k, hk1, ?_, h.1 ▸ hk3⟩
      revert hk2
      simp [GEMINI_MAX_RETRIES]
      omega
    · intro h; simp at h
  · split
    · rename_i path2 heq2
      dsimp only
      intro h
      rw [GenResult.ok.injEq] at h
      obtain ⟨k, hk1, hk2, hk3⟩ := phase2Go_some_src env2 GEMINI_MAX_RETRIES 1 path2 heq2
      refine Or.inr ⟨h.2.symm, k, hk1, ?_, h.1 ▸ hk3⟩
      revert hk2
      simp [GEMINI_MAX_RETRIES]
      omega
    · intro h; simp at h

/-- C6 amended witness: for a run accepting a perfect primary candidate, the
returned report `some qPerfect` is the one of the evaluated attempt in the
trace. -/
theorem quality_report_provenance_witness :
    (∃ q, (some qPerfect : Option QualityCheckResult) = some q ∧
        ∃ e ∈ (generateImageWithQualityCheck
            (fun _ => GensparkOutcome.image "w6.png" qPerfect) (fun _ => none)
            "pr6w" defaultCharacterFeatures).primaryTrace,
          e.outcome = GensparkOutcome.image "w6.png" q) ∨
    ((some qPerfect : Option QualityCheckResult) = none ∧
       ∃ k, 1 ≤ k ∧ k ≤ 3 ∧ (fun (_ : Nat) => (none : Option String)) k = some "w6.png") :=
  quality_report_provenance (fun _ => GensparkOutcome.image "w6.png" qPerfect)
    (fun _ => none) "pr6w" defaultCharacterFeatures "w6.png" (some qPerfect) rfl

/-- C7 counterexample: the expired-session navigation failure surfaces as
the generic message 画像生成ページへの移動に失敗しました, which the
fatal-error classifier does not match, so after that failure on attempt 1 a
second primary attempt is issued — the primary provider is not abandoned. -/
theorem session_expired_navigation_retried :
    isFatalLoginError navigationFailedMsg = false ∧
    (generateImageWithQualityCheck
        (fun k => if k == 1 then GensparkOutcome.thrown navigationFailedMsg
                  else GensparkOutcome.image "after_nav.png" qPerfect)
        (fun _ => none) "pr7" defaultCharacterFeatures).primaryTrace =
      [⟨"pr7", GensparkOutcome.thrown navigationFailedMsg⟩,
       ⟨"pr7", GensparkOutcome.image "after_nav.png" qPerfect⟩] :=
  ⟨rfl, rfl⟩

/-- C7 amended: an error is fatal-to-provider exactly when its message
contains ログイン, login or 認証.  The login failure thrown by
`generateCarouselImages` is so classified, while the session-expired
navigation failure is not (it is retried, see the counterexample); and
whenever a run's trace contains a fatally-classified outcome, the primary
provider is abandoned: the run's result comes from the fallback provider or
is the login-and-fallback terminal failure. -/
theorem fatal_classification_and_fallback :
    isFatalLoginError loginFailedMsg = true ∧
    isFatalLoginError navigationFailedMsg = false ∧
    (∀ (env1 : Nat → GensparkOutcome) (env2 : Nat → Option String)
       (p : String) (cf : CharacterFeatures),
       (∃ e ∈ (generateImageWithQualityCheck env1 env2 p cf).primaryTrace,
          isFatalThrown e.outcome = true) →
       ((∃ path k, (generateImageWithQualityCheck env1 env2 p cf).outcome =
           GenResult.ok path none ∧ 1 ≤ k ∧ k ≤ 3 ∧ env2 k = some path) ∨
        (generateImageWithQualityCheck env1 env2 p cf).outcome =
          GenResult.failed WorkflowFailure.loginAndFallbackFailed)) := by
  refine ⟨rfl, rfl, ?_⟩
  intro env1 env2 p cf hmem
  obtain ⟨e, he, hf⟩ := hmem
  rw [run_primaryTrace] at he
  obtain ⟨lq, hfatal⟩ := phase1Go_fatal_of_mem env1 p cf MAX_RETRIES 1 p none e he hf
  simp only [generateImageWithQualityCheck]
  split
  · rename_i heq
    rw [hfatal] at heq
    cases heq
  · split
    · rename_i path2 heq2
      dsimp only
      obtain ⟨k, hk1, hk2, hk3⟩ := phase2Go_some_src env2 GEMINI_MAX_RETRIES 1 path2 heq2
      refine Or.inl ⟨path2, k, rfl, hk1, ?_, hk3⟩
      revert hk2
      simp [GEMINI_MAX_RETRIES]
      omega
    · exact Or.inr rfl
  · rename_i heq
    rw [hfatal] at heq
    cases heq

/-- C7 amended witness: with the classified login failure on attempt 1 and
no working fallback, the run ends in the login-and-fallback terminal
failure. -/
theorem fatal_classification_and_fallback_witness :
    (∃ path k, (generateImageWithQualityCheck (fun _ => GensparkOutcome.thrown loginFailedMsg)
        (fun _ => none) "pr7w" defaultCharacterFeatures).outcome = GenResult.ok path none ∧
        1 ≤ k ∧ k ≤ 3 ∧ (fun (_ : Nat) => (none : Option String)) k = some path) ∨
    (generateImageWithQualityCheck (fun _ => GensparkOutcome.thrown loginFailedMsg)
        (fun _ => none) "pr7w" defaultCharacterFeatures).outcome =
      GenResult.failed WorkflowFailure.loginAndFallbackFailed :=
  fatal_classification_and_fallback.2.2 (fun _ => GensparkOutcome.thrown loginFailedMsg)
    (fun _ => none) "pr7w" defaultCharacterFeatures
    ⟨⟨"pr7w", GensparkOutcome.thrown loginFailedMsg⟩, by decide, by decide⟩

theorem genLoop_error_of_failed (runs : Nat → GenResult) :
    ∀ n start i, start ≤ i → i < start + n →
      (∃ e, runs i = GenResult.failed e) →
      ∃ e2, genLoop runs n start = Except.error e2 := by
  intro n
  induction n with
  | zero => intro start i h1 h2 _; omega
  | succ m ih =>
    intro start i h1 h2 hfail
    simp only [genLoop]
    cases hr : runs start with
    | failed e0 => exact ⟨e0, rfl⟩
    | ok path oq =>
      have hi : start ≠ i := by
        intro hcontra
        obtain ⟨e, he⟩ := hfail
        rw [← hcontra, hr] at he
        cases he
      obtain ⟨e2, herr⟩ := ih (start + 1) i (by omega) (by omega) hfail
      rw [herr]
      exact ⟨e2, rfl⟩

/-- C8: whenever any slide's image generation ends in the fatal-to-request
failure, the `execute` pipeline performs no FTP upload and no Publer
scheduling and returns `success = false` with empty `localImages` and
`publicUrls` — the downstream publish step is aborted entirely. -/
theorem execute_aborts_on_generation_failure :
    ∀ (env : ExecEnv) (i : Nat), i < env.numPrompts →
      (∃ e, env.runs i = GenResult.failed e) →
      executeModel env = failedExecResult := by
  intro env i hi hfail
  obtain ⟨e2, herr⟩ :=
    genLoop_error_of_failed env.runs env.numPrompts 0 i (Nat.zero_le i) (by omega) hfail
  simp only [executeModel]
  rw [herr]

/-- C8 witness: a pipeline whose first slide generation fails returns the
aborted result. -/
theorem execute_aborts_on_generation_failure_witness :
    executeModel
      { runs := fun _ => GenResult.failed WorkflowFailure.qualityAndFallbackFailed,
        numPrompts := 4,
        compose := fun l _ => l,
        upload := fun l => l,
        skipUpload := false } = failedExecResult :=
  execute_aborts_on_generation_failure
    { runs := fun _ => GenResult.failed WorkflowFailure.qualityAndFallbackFailed,
      numPrompts := 4,
      compose := fun l _ => l,
      upload := fun l => l,
      skipUpload := false }
    0 (by decide) ⟨WorkflowFailure.qualityAndFallbackFailed, rfl⟩

/-- C9: `adjustSlidesToFourSlides` always returns exactly 4 slides; for a
non-empty input the first returned slide is the input's cover slide if one
exists and otherwise the first input slide retyped as a cover (so its type
is always cover); and the result is the chosen cover followed by at most 3
of the input's content slides in order, padded with filler content
slides. -/
theorem adjust_slides_shape :
    ∀ slides : List Slide,
      (adjustSlidesToFourSlides slides).length = 4 ∧
      (∀ s0 rest, slides = s0 :: rest →
        (adjustSlidesToFourSlides slides).head? =
          some (match slides.find? (fun s => decide (s.type = SlideType.cover)) with
                | some c => c
                | none => { s0 with type := SlideType.cover }) ∧
        ∀ c, (adjustSlidesToFourSlides slides).head? = some c →
          c.type = SlideType.cover) ∧
      (∃ m, adjustSlidesToFourSlides slides =
        coverPart slides ++
          (slides.filter (fun s => decide (s.type = SlideType.content))).take 3 ++
          List.replicate m fillerSlide) := by
  intro slides
  have hcov : (coverPart slides).length ≤ 1 := by
    unfold coverPart
    split
    · simp
    · split <;> simp
  have htake :
      ((slides.filter (fun s => decide (s.type = SlideType.content))).take 3).length ≤ 3 := by
    simp [List.length_take]
  refine ⟨?_, ?_, ?_⟩
  · simp only [adjustSlidesToFourSlides, padToFour, List.length_append,
      List.length_replicate]
    omega
  · intro s0 rest hs
    subst hs
    cases hf : (s0 :: rest).find? (fun s => decide (s.type = SlideType.cover)) with
    | some c =>
      have hc : c.type = SlideType.cover := by
        have hpc := List.find?_some hf
        simpa using hpc
      constructor
      · simp only [adjustSlidesToFourSlides, coverPart, hf, padToFour,
          List.singleton_append, List.cons_append, List.head?_cons]
      · intro c2 hc2
        simp only [adjustSlidesToFourSlides, coverPart, hf, padToFour,
          List.singleton_append, List.cons_append, List.head?_cons,
          Option.some.injEq] at hc2
        rw [← hc2]
        exact hc
    | none =>
      constructor
      · simp only [adjustSlidesToFourSlides, coverPart, hf, padToFour,
          List.singleton_append, List.cons_append, List.head?_cons]
      · intro c2 hc2
        simp only [adjustSlidesToFourSlides, coverPart, hf, padToFour,
          List.singleton_append, List.cons_append, List.head?_cons,
          Option.some.injEq] at hc2
        rw [← hc2]
  · exact ⟨4 - (coverPart slides ++
      (slides.filter (fun s => decide (s.type = SlideType.content))).take 3).length, rfl⟩

/-- C9 witness: a single content-slide input yields that slide retyped as
the cover in first position. -/
theorem adjust_slides_shape_witness :
    (adjustSlidesToFourSlides
        [{ type := SlideType.content, headline := "only slide" }]).head? =
      some (match ([{ type := SlideType.content, headline := "only slide" }] : List Slide).find?
              (fun s => decide (s.type = SlideType.cover)) with
            | some c => c
            | none => { ({ type := SlideType.content, headline := "only slide" } : Slide) with
                          type := SlideType.cover }) ∧
    ∀ c, (adjustSlidesToFourSlides
        [{ type := SlideType.content, headline := "only slide" }]).head? = some c →
      c.type = SlideType.cover :=
  ((adjust_slides_shape [{ type := SlideType.content, headline := "only slide" }]).2.1
    { type := SlideType.content, headline := "only slide" } [] rfl)

theorem screenshotFallback_bound (c : CandidateImage) (p : String) (n : Nat)
    (h : screenshotFallback c = some (p, n)) : MIN_IMAGE_BYTES < n := by
  unfold screenshotFallback at h
  split at h
  · split at h
    · rename_i hm
      simp only [Option.some.injEq, Prod.mk.injEq] at h
      exact h.2 ▸ hm
    · cases h
  · cases h

theorem processCandidate_bound (c : CandidateImage) (p : String) (n : Nat)
    (h : processCandidate c = some (p, n)) : MIN_IMAGE_BYTES < n := by
  unfold processCandidate at h
  split at h
  · split at h
    · rename_i hm
      simp only [Option.some.injEq, Prod.mk.injEq] at h
      exact h.2 ▸ hm
    · exact screenshotFallback_bound c p n h
  · exact screenshotFallback_bound c p n h

/-- C10: `waitForImageGeneration` returns either `none` (timeout) or a path
whose saved byte count strictly exceeds 30000, on both the raw-byte-fetch
path and the screenshot-fallback path; a candidate of 30000 bytes or fewer
is never returned. -/
theorem wait_image_size_threshold :
    ∀ (cands : List CandidateImage) (path : String) (n : Nat),
      waitForImageGeneration cands = some (path, n) → MIN_IMAGE_BYTES < n := by
  intro cands
  induction cands with
  | nil => intro path n h; simp [waitForImageGeneration] at h
  | cons c rest ih =>
    intro path n h
    simp only [waitForImageGeneration] at h
    split at h
    · rename_i r hr
      rw [Option.some.injEq] at h
      exact processCandidate_bound c path n (h ▸ hr)
    · exact ih _ _ h

/-- C10 witness: a candidate whose raw fetch yielded only 100 bytes but
whose screenshot file has 40000 bytes is returned with a byte count above
the threshold. -/
theorem wait_image_size_threshold_witness : MIN_IMAGE_BYTES < 40000 :=
  wait_image_size_threshold [⟨"shot.png", some 100, some 40000⟩] "shot.png" 40000 rfl

end IfJuku

